import Mathlib

/-!
Shallow embedding of the Fraudly client logic.

The repository is a fraud-monitoring web application.  The logic verified
here is the client-side fraud rule engine (`handleAddTransaction` in
`src/pages/Dashboard.tsx`), the session-reconciliation sync
(`performSync` / `getRoleFromCognito` in `src/context/AuthContext.tsx`),
the banned-user effect and login watchdog (`src/pages/Login.tsx`), the
callback one-shot guard (`handleAuthSuccess` in the auth callback page),
and the fund-transfer validation (`transferFunds` in
`src/context/AuthContext.tsx`).

Modelling conventions:
* JavaScript numbers (currency amounts, thresholds) are modelled as `ℚ`.
* JavaScript string lowercasing is modelled on ASCII via `Char.toLower`,
  which agrees with `String.prototype.toLowerCase` on ASCII input.
* Optional fields (`threshold?`, `keyword?`) are `Option`s; JavaScript
  truthiness tests on them (`rule.threshold &&`, `rule.keyword &&`) are
  modelled explicitly: `0` and `""` are falsy.
* Network calls are recorded in the result (a list of issued requests);
  a backend that succeeds and echoes the payload is assumed on the paths
  the claims talk about.
* React session storage flags and `useRef` cells become fields of explicit
  state records; an effect or callback becomes a state-transition function.
-/

namespace Fraudly

/-- Roles from `src/types.ts` (`UserRole`). -/
inductive UserRole where
  | Customer
  | Employee
  | Admin
deriving DecidableEq, Repr

/-- Transaction statuses from `src/types.ts` (`TransactionStatus`). -/
inductive TransactionStatus where
  | approved
  | fraudulent
  | in_review
deriving DecidableEq, Repr

/-- The `result` field of a fraud rule: `"fraudulent" | "in_review"`. -/
inductive RuleResult where
  | fraudulent
  | in_review
deriving DecidableEq, Repr

/-- The cast `rule.result as TransactionStatus` in `Dashboard.tsx`. -/
def RuleResult.toStatus : RuleResult → TransactionStatus
  | .fraudulent => .fraudulent
  | .in_review => .in_review

/-- Rule kinds from `src/types.ts` (`FraudRuleType`). -/
inductive FraudRuleType where
  | amount
  | merchantKeyword
deriving DecidableEq, Repr

/-- A fraud rule, from `src/types.ts` (`FraudRule`).  `threshold` and
`keyword` are optional fields in the TypeScript interface. -/
structure FraudRule where
  id : String
  type : FraudRuleType
  description : String
  threshold : Option ℚ
  keyword : Option String
  result : RuleResult
deriving DecidableEq, Repr

/-- A user, from `src/types.ts` (first variant of the `User` interface). -/
structure User where
  email : String
  role : UserRole
  balance : ℚ
  cardFrozen : Bool
  alertThreshold : Option ℚ
  isBanned : Bool
deriving DecidableEq, Repr

/-- JavaScript truthiness of an optional number: `undefined` and `0` are
falsy (`rule.threshold &&` in `Dashboard.tsx`). -/
def numTruthy : Option ℚ → Bool
  | none => false
  | some x => x != 0

/-- JavaScript truthiness of an optional string: `undefined` and `""` are
falsy (`rule.keyword &&` in `Dashboard.tsx`). -/
def strTruthy : Option String → Bool
  | none => false
  | some s => s != ""

/-- `String.prototype.toLowerCase`, modelled on ASCII: every character is
lowercased individually. -/
def lowerString (s : String) : String :=
  ⟨s.data.map Char.toLower⟩

/-- Contiguous-sublist test on character lists: `needle` occurs somewhere
inside `hay`. -/
def listIncludes (hay needle : List Char) : Bool :=
  (List.range (hay.length + 1)).any fun i => needle.isPrefixOf (hay.drop i)

/-- `String.prototype.includes`: `needle` is a contiguous substring of
`hay`. -/
def strIncludes (hay needle : String) : Bool :=
  listIncludes hay.data needle.data

/-- The per-rule trigger test from the loop body of `handleAddTransaction`
(`src/pages/Dashboard.tsx` lines 130-135):

`rule.type === "amount" && rule.threshold && amount > rule.threshold`, else
`rule.type === "merchantKeyword" && rule.keyword &&
 merchant.toLowerCase().includes(rule.keyword.toLowerCase())`. -/
def ruleTriggered (amount : ℚ) (merchant : String) (rule : FraudRule) : Bool :=
  if rule.type == FraudRuleType.amount && numTruthy rule.threshold
      && decide (amount > rule.threshold.getD 0) then
    true
  else if rule.type == FraudRuleType.merchantKeyword && strTruthy rule.keyword
      && strIncludes (lowerString merchant) (lowerString (rule.keyword.getD "")) then
    true
  else
    false

/-- Sort key used by `fraudRules.sort((a,b) => (b.threshold || 0) - (a.threshold || 0))`:
a missing threshold counts as `0`. -/
def ruleKey (r : FraudRule) : ℚ :=
  r.threshold.getD 0

/-- Stable insertion (descending by `ruleKey`) used to model the stable
JavaScript `Array.prototype.sort` with comparator
`(b.threshold || 0) - (a.threshold || 0)`. -/
def insertRuleDesc (r : FraudRule) : List FraudRule → List FraudRule
  | [] => [r]
  | x :: xs =>
      if ruleKey x ≤ ruleKey r then r :: x :: xs
      else x :: insertRuleDesc r xs

/-- The sorted rule list: descending by threshold (missing threshold = 0),
stable, as produced by the `.sort` call in `handleAddTransaction`. -/
def sortRulesDesc (rules : List FraudRule) : List FraudRule :=
  rules.foldr insertRuleDesc []

/-- The reason string written when a rule fires:
`` `Flagged by rule: ${rule.description}.` `` (note the trailing period in
the template literal, `Dashboard.tsx` line 139). -/
def flagReason (r : FraudRule) : String :=
  "Flagged by rule: " ++ r.description ++ "."

/-- The initial reason, kept when no rule fires (`Dashboard.tsx` line 126). -/
def normalReason : String :=
  "Transaction appears normal."

/-- The `for ... break` loop of `handleAddTransaction` over an (already
sorted) rule list: the first triggered rule sets status and reason and the
loop stops; otherwise the initial `(approved, Transaction appears normal.)` pair survives. -/
def ruleLoop (amount : ℚ) (merchant : String) :
    List FraudRule → TransactionStatus × String
  | [] => (TransactionStatus.approved, normalReason)
  | r :: rs =>
      if ruleTriggered amount merchant r then (r.result.toStatus, flagReason r)
      else ruleLoop amount merchant rs

/-- The dynamic fraud rule engine of `handleAddTransaction`
(`src/pages/Dashboard.tsx` lines 125-142): sort descending by threshold,
then first-match-wins. -/
def evaluateRules (rules : List FraudRule) (amount : ℚ) (merchant : String) :
    TransactionStatus × String :=
  ruleLoop amount merchant (sortRulesDesc rules)

/-- Outcome of `handleAddTransaction` (`src/pages/Dashboard.tsx` lines
103-188) as observed by the client: either a local decline (one of the
pre-check error messages) or a processed transaction carrying the decided
status, the reason, and the user balance after the conditional
`updateUser({ balance: ... })` call. -/
inductive TxnOutcome where
  | declined (errorMsg : String)
  | processed (status : TransactionStatus) (reason : String) (newBalance : ℚ)
deriving DecidableEq, Repr

/-- `handleAddTransaction` on its successful-persistence path: pre-checks
(banned, frozen card, insufficient funds) decline locally; otherwise the
rule engine decides status and reason, and the balance is decreased only
when the status is not `"fraudulent"` (`Dashboard.tsx` lines 174-177). -/
def handleAddTransaction (user : User) (fraudRules : List FraudRule)
    (amount : ℚ) (merchant : String) : TxnOutcome :=
  if user.isBanned then
    TxnOutcome.declined "Transaction declined. Your account is suspended."
  else if user.cardFrozen then
    TxnOutcome.declined "Transaction declined. Your card is frozen."
  else if user.balance < amount then
    TxnOutcome.declined "Transaction declined. Insufficient funds."
  else
    let decision := evaluateRules fraudRules amount merchant
    let newBalance :=
      if decision.1 ≠ TransactionStatus.fraudulent then user.balance - amount
      else user.balance
    TxnOutcome.processed decision.1 decision.2 newBalance

/-- A `PUT /users/{email}` request issued by `transferFunds`, carrying the
balance payload. -/
structure NetPut where
  targetEmail : String
  newBalance : ℚ
deriving DecidableEq, Repr

/-- The client-side auth state touched by `transferFunds`: the logged-in
user (`user`) and the cached user list (`users`) of `AuthContext`. -/
structure ClientState where
  user : Option User
  users : List User
deriving DecidableEq, Repr

/-- Result of one `transferFunds` call: the client state afterwards, the
network requests issued, and the error message thrown (if any). -/
structure TransferResult where
  state : ClientState
  netCalls : List NetPut
  errorMsg : Option String
deriving DecidableEq, Repr

/-- `transferFunds` from `src/context/AuthContext.tsx` lines 219-254.
Every `throw` happens before any `setUser` / `setUsers` mutation and before
any `fetch`, so a validation failure returns the state unchanged with no
network calls. -/
def transferFunds (st : ClientState) (recipientEmail : String) (amount : ℚ) :
    TransferResult :=
  match st.user with
  | none => ⟨st, [], some "No user logged in."⟩
  | some user =>
      if amount ≤ 0 then ⟨st, [], some "Amount must be positive."⟩
      else
        match st.users.find? (fun u => u.email == recipientEmail) with
        | none => ⟨st, [], some "Recipient not found."⟩
        | some recipient =>
            if user.balance < amount then ⟨st, [], some "Insufficient funds."⟩
            else
              let updatedSender : User := { user with balance := user.balance - amount }
              let updatedRecipient : User :=
                { recipient with balance := recipient.balance + amount }
              let newUsers := st.users.map fun u =>
                if u.email == user.email then updatedSender
                else if u.email == recipientEmail then updatedRecipient
                else u
              ⟨⟨some updatedSender, newUsers⟩,
               [⟨user.email, updatedSender.balance⟩,
                ⟨recipientEmail, updatedRecipient.balance⟩],
               none⟩

/-- `String.prototype.endsWith`, modelled on the character list. -/
def strEndsWith (s sfx : String) : Bool :=
  sfx.data.isSuffixOf s.data

/-- Role assignment at first-time user creation in the first `performSync`
variant (`src/context/AuthContext.tsx` lines 81-84): determined by email
pattern. -/
def roleFromEmail (email : String) : UserRole :=
  if email == "admin@company.com" then UserRole.Admin
  else if strEndsWith email "@company.com" then UserRole.Employee
  else UserRole.Customer

/-- Successful outcome of `performSync`: the user made active (`setUser`),
the users list afterwards, and how many `POST /users` creations were
issued. -/
structure SyncOk where
  activeUser : User
  users : List User
  createdCount : Nat
deriving DecidableEq, Repr

/-- The first `performSync` variant (`src/context/AuthContext.tsx` lines
75-118): look the user up by email; if absent, create one with the
email-pattern role, balance 10000, `cardFrozen: false`,
`alertThreshold: null`, `isBanned: false`; then throw if banned, else
activate.  The backend `POST /users` is assumed to succeed and echo the
payload. -/
def performSync (email : String) (currentUsersList : List User) :
    Except String SyncOk :=
  match currentUsersList.find? (fun u => u.email == email) with
  | some existingUser =>
      if existingUser.isBanned then Except.error "This account has been suspended."
      else Except.ok ⟨existingUser, currentUsersList, 0⟩
  | none =>
      let newUser : User :=
        ⟨email, roleFromEmail email, 10000, false, none, false⟩
      if newUser.isBanned then Except.error "This account has been suspended."
      else Except.ok ⟨newUser, currentUsersList ++ [newUser], 1⟩

/-- A user as in the second `src/types.ts` variant: keyed by Cognito
username, with an optional full name. -/
structure User2 where
  username : String
  email : String
  fullName : Option String
  role : UserRole
  balance : ℚ
  cardFrozen : Bool
  alertThreshold : Option ℚ
  isBanned : Bool
deriving DecidableEq, Repr

/-- `getRoleFromCognito` (`src/context/AuthContext.tsx` lines 429-449):
role defaults to Customer and is overridden from the `cognito:groups`
claim when groups are present. -/
def getRoleFromCognito (groups : Option (List String)) : UserRole :=
  match groups with
  | some gs =>
      if gs.length > 0 then
        if gs.contains "Admin" then UserRole.Admin
        else if gs.contains "Employee" then UserRole.Employee
        else UserRole.Customer
      else UserRole.Customer
  | none => UserRole.Customer

/-- JavaScript `a || b` on an optional string: falls back on `undefined`
and on the empty string. -/
def jsStringOr (a : Option String) (b : String) : String :=
  match a with
  | some s => if s != "" then s else b
  | none => b

/-- Successful outcome of the second `performSync` variant. -/
structure Sync2Ok where
  activeUser : User2
  users : List User2
  createdCount : Nat
deriving DecidableEq, Repr

/-- The second `performSync` variant (`src/context/AuthContext.tsx` lines
454-572): look the user up by Cognito username; if absent, create one with
the role from `getRoleFromCognito`, balance 10000 and flags cleared; if
present, optionally refresh email and missing full name via `PUT` (the
payload carries only those fields, never the role), then throw if banned,
else activate.  Backend `POST`/`PUT` are assumed to succeed and apply the
payload. -/
def performSync2 (username email : String) (fullNameFromCognito : Option String)
    (groups : Option (List String)) (currentUsersList : List User2) :
    Except String Sync2Ok :=
  match currentUsersList.find? (fun u => u.username == username) with
  | none =>
      let newUser : User2 :=
        ⟨username, email, some (jsStringOr fullNameFromCognito username),
         getRoleFromCognito groups, 10000, false, none, false⟩
      if newUser.isBanned then Except.error "This account has been suspended."
      else Except.ok ⟨newUser, currentUsersList ++ [newUser], 1⟩
  | some existingUser =>
      let u1 :=
        if existingUser.email != email then { existingUser with email := email }
        else existingUser
      let u2 :=
        if !strTruthy u1.fullName && strTruthy fullNameFromCognito then
          { u1 with fullName := fullNameFromCognito }
        else u1
      let users2 := currentUsersList.map fun u =>
        if u.username == username then u2 else u
      if u2.isBanned then Except.error "This account has been suspended."
      else Except.ok ⟨u2, users2, 0⟩

/-- The session-storage flags read and written by `src/pages/Login.tsx`:
`LOGIN_PENDING`, `AUTH_LOCKED`, `LOGIN_ERROR`, `BANNED_LOOP_ONCE`. -/
structure LoginSession where
  loginPending : Bool
  authLocked : Bool
  loginError : Option String
  bannedLoopOnce : Bool
deriving DecidableEq, Repr

/-- State of the mounted `Login` component across renders: the session
flags, the `signedOutOnce` ref, and instrumentation counting the global
sign-out calls and the `navigate("/login")` redirects the component has
performed. -/
structure LoginComponent where
  session : LoginSession
  signedOutOnce : Bool
  globalSignOutCalls : Nat
  loginNavigations : Nat
deriving DecidableEq, Repr

/-- One run of the banned-user effect of `Login` (`src/pages/Login.tsx`
lines 101-129), given the `user` value observed by that render: a non-banned
(or absent) user is a no-op; a banned user locks the screen, persists the
banned message and clears pending, and only on the first detection
(`BANNED_LOOP_ONCE` unset and `signedOutOnce` ref unset) performs the global
sign-out followed by the `navigate("/login")` bounce. -/
def bannedEffect (user : Option User) (c : LoginComponent) : LoginComponent :=
  match user with
  | none => c
  | some u =>
      if !u.isBanned then c
      else
        let s1 : LoginSession :=
          { c.session with
              authLocked := true
              loginError := some "Account is banned"
              loginPending := false }
        if s1.bannedLoopOnce then { c with session := s1 }
        else
          let s2 : LoginSession := { s1 with bannedLoopOnce := true }
          if c.signedOutOnce then { c with session := s2 }
          else
            { c with
                session := s2
                signedOutOnce := true
                globalSignOutCalls := c.globalSignOutCalls + 1
                loginNavigations := c.loginNavigations + 1 }

/-- Firing of the watchdog timer installed by the `Login` watchdog effect
(`src/pages/Login.tsx` lines 153-162): re-read the flags; if no longer
pending, or locked (banned), change nothing; otherwise clear pending and
persist the retry error. -/
def watchdogFireEffect (s : LoginSession) : LoginSession :=
  if !s.loginPending then s
  else if s.authLocked then s
  else
    { s with
        loginPending := false
        loginError := some "Sign in failed. Please try again." }

/-- Firing of the watchdog timer started by `handleSSOLogin`
(`src/pages/Login.tsx` lines 180-187): acts only when still pending and not
locked. -/
def watchdogFireSSO (s : LoginSession) : LoginSession :=
  if s.loginPending && !s.authLocked then
    { s with
        loginPending := false
        loginError := some "Sign in failed. Please click “Sign in with Cognito” again." }
  else s

/-- State of the auth-callback page relevant to the one-shot sync guard:
the `startedRef` ref and a count of the sync invocations actually issued. -/
structure CallbackState where
  started : Bool
  syncInvocations : Nat
deriving DecidableEq, Repr

/-- `handleAuthSuccess` of the auth-callback page (`startedRef` guard):
a second entry returns immediately; the first sets the flag and performs
the sync. -/
def handleAuthSuccess (s : CallbackState) : CallbackState :=
  if s.started then s
  else { started := true, syncInvocations := s.syncInvocations + 1 }

/-- Specification-level substring relation, stated from the words of the
spec rather than from the code: the needle occurs contiguously inside the
haystack. -/
def substrOccurs (hay needle : String) : Prop :=
  ∃ pre post : List Char, hay.data = pre ++ needle.data ++ post

/-- The executable `String.prototype.includes` model agrees with the
declarative substring relation. -/
theorem strIncludes_iff (hay needle : String) :
    strIncludes hay needle = true ↔ substrOccurs hay needle := by
  unfold strIncludes listIncludes substrOccurs
  rw [List.any_eq_true]
  constructor
  · rintro ⟨i, _, hpre⟩
    rcases List.isPrefixOf_iff_prefix.mp hpre with ⟨t, ht⟩
    exact ⟨hay.data.take i, t, by rw [List.append_assoc, ht, List.take_append_drop]⟩
  · rintro ⟨pre, post, hdecomp⟩
    refine ⟨pre.length, ?_, ?_⟩
    · rw [List.mem_range]
      have hlen : hay.data.length = pre.length + needle.data.length + post.length := by
        rw [hdecomp]
        simp [List.length_append]
        omega
      omega
    · rw [List.isPrefixOf_iff_prefix, hdecomp, List.append_assoc, List.drop_left]
      exact List.prefix_append needle.data post

/-- The rule loop is a first-match search over its input list. -/
theorem ruleLoop_eq_find? (amount : ℚ) (merchant : String) (l : List FraudRule) :
    ruleLoop amount merchant l =
      match l.find? (ruleTriggered amount merchant) with
      | some r => (r.result.toStatus, flagReason r)
      | none => (TransactionStatus.approved, normalReason) := by
  induction l with
  | nil => rfl
  | cons r rs ih =>
      by_cases h : ruleTriggered amount merchant r = true
      · simp [ruleLoop, List.find?_cons, h]
      · simp only [Bool.not_eq_true] at h
        simp [ruleLoop, List.find?_cons, h, ih]

/-- Inserting preserves multiset contents. -/
theorem insertRuleDesc_perm (r : FraudRule) (l : List FraudRule) :
    List.Perm (insertRuleDesc r l) (r :: l) := by
  induction l with
  | nil => exact List.Perm.refl _
  | cons x xs ih =>
      by_cases h : ruleKey x ≤ ruleKey r
      · simp [insertRuleDesc, h]
      · simp only [insertRuleDesc, if_neg h]
        exact (ih.cons x).trans (List.Perm.swap r x xs)

/-- The sorted rule list is a permutation of the input rules. -/
theorem sortRulesDesc_perm (l : List FraudRule) :
    List.Perm (sortRulesDesc l) l := by
  induction l with
  | nil => exact List.Perm.refl _
  | cons x xs ih =>
      exact (insertRuleDesc_perm x (sortRulesDesc xs)).trans (ih.cons x)

/-- Inserting into a list that is descending by `ruleKey` keeps it
descending. -/
theorem insertRuleDesc_pairwise (r : FraudRule) (l : List FraudRule)
    (h : List.Pairwise (fun a b => ruleKey b ≤ ruleKey a) l) :
    List.Pairwise (fun a b => ruleKey b ≤ ruleKey a) (insertRuleDesc r l) := by
  induction l with
  | nil => simp [insertRuleDesc]
  | cons x xs ih =>
      rcases List.pairwise_cons.mp h with ⟨hx, hxs⟩
      by_cases hle : ruleKey x ≤ ruleKey r
      · simp only [insertRuleDesc, if_pos hle]
        refine List.pairwise_cons.mpr ⟨?_, h⟩
        intro y hy
        rcases List.mem_cons.mp hy with rfl | hy2
        · exact hle
        · exact le_trans (hx y hy2) hle
      · simp only [insertRuleDesc, if_neg hle]
        refine List.pairwise_cons.mpr ⟨?_, ih hxs⟩
        intro y hy
        rcases List.mem_cons.mp ((insertRuleDesc_perm r xs).mem_iff.mp hy) with rfl | hy2
        · exact le_of_lt (not_le.mp hle)
        · exact hx y hy2

/-- The sorted rule list is descending by `ruleKey`. -/
theorem sortRulesDesc_pairwise (l : List FraudRule) :
    List.Pairwise (fun a b => ruleKey b ≤ ruleKey a) (sortRulesDesc l) := by
  induction l with
  | nil => simp [sortRulesDesc]
  | cons x xs ih => exact insertRuleDesc_pairwise x _ ih

/-- A prefix of untriggered rules is skipped by the loop. -/
theorem ruleLoop_append_untriggered (amount : ℚ) (merchant : String)
    (l1 l2 : List FraudRule)
    (h : ∀ x ∈ l1, ruleTriggered amount merchant x = false) :
    ruleLoop amount merchant (l1 ++ l2) = ruleLoop amount merchant l2 := by
  induction l1 with
  | nil => rfl
  | cons x xs ih =>
      have hx := h x (List.mem_cons_self x xs)
      simp only [List.cons_append, ruleLoop, hx, Bool.false_eq_true, if_false]
      exact ih fun y hy => h y (List.mem_cons_of_mem x hy)

/-- Claim C3, counterexample: the code writes the flag reason with a
trailing period (`` `Flagged by rule: ${rule.description}.` ``), so for the
rule described "High amount" the reason is "Flagged by rule: High amount."
and not the claimed "Flagged by rule: High amount". -/
theorem claim_C3_counterexample :
    evaluateRules
        [⟨"r1", FraudRuleType.amount, "High amount", some 1000, none, RuleResult.fraudulent⟩]
        1500 "Store" =
      (TransactionStatus.fraudulent, "Flagged by rule: High amount.") ∧
    "Flagged by rule: High amount." ≠ "Flagged by rule: High amount" := by
  constructor
  · decide
  · decide

/-- Claim C3 as amended: for every transaction and rule set, if some rule
matches then the engine returns that rule status and the reason
"Flagged by rule: \x7bdescription\x7d." (with a trailing period); if no rule
matches (in particular for an empty rule set) it returns status approved
and reason "Transaction appears normal.". -/
theorem claim_C3_rule_engine_output (rules : List FraudRule) (amount : ℚ)
    (merchant : String) :
    ((∃ r ∈ rules, ruleTriggered amount merchant r = true) →
      ∃ r ∈ rules, ruleTriggered amount merchant r = true ∧
        evaluateRules rules amount merchant =
          (r.result.toStatus, "Flagged by rule: " ++ r.description ++ ".")) ∧
    ((∀ r ∈ rules, ruleTriggered amount merchant r = false) →
      evaluateRules rules amount merchant =
        (TransactionStatus.approved, "Transaction appears normal.")) := by
  constructor
  · rintro ⟨r, hr, htrig⟩
    cases hfind : (sortRulesDesc rules).find? (ruleTriggered amount merchant) with
    | none =>
        exact absurd htrig
          (List.find?_eq_none.mp hfind r ((sortRulesDesc_perm rules).mem_iff.mpr hr))
    | some r2 =>
        refine ⟨r2, (sortRulesDesc_perm rules).mem_iff.mp (List.mem_of_find?_eq_some hfind),
          List.find?_some hfind, ?_⟩
        unfold evaluateRules
        rw [ruleLoop_eq_find?, hfind]
        rfl
  · intro hall
    unfold evaluateRules
    rw [ruleLoop_eq_find?]
    have hnone : (sortRulesDesc rules).find? (ruleTriggered amount merchant) = none :=
      List.find?_eq_none.mpr fun x hx => by
        simp [hall x ((sortRulesDesc_perm rules).mem_iff.mp hx)]
    rw [hnone]
    rfl

/-- Claim C3, witness: on the empty rule set the engine approves with the
normal reason. -/
theorem claim_C3_witness :
    evaluateRules [] 5 "Store" =
      (TransactionStatus.approved, "Transaction appears normal.") :=
  (claim_C3_rule_engine_output [] 5 "Store").2 (by simp)

/-- Claim C4: rules are evaluated after a stable descending sort on the
threshold, with a missing threshold counting as 0 (so, when all present
thresholds are positive, the threshold-less keyword rules come last); the
first rule that triggers decides the outcome and evaluation stops there;
and concretely, when rules with thresholds 100 and 50 both match, the
100-threshold rule wins. -/
theorem claim_C4_sort_and_first_match (rules : List FraudRule) (amount : ℚ)
    (merchant : String) :
    List.Perm (sortRulesDesc rules) rules ∧
    List.Pairwise (fun a b => ruleKey b ≤ ruleKey a) (sortRulesDesc rules) ∧
    (∀ r : FraudRule, r.threshold = none → ruleKey r = 0) ∧
    ((∀ r ∈ rules, r.threshold = none ∨ 0 < ruleKey r) →
      List.Pairwise (fun a b => a.threshold = none → b.threshold = none)
        (sortRulesDesc rules)) ∧
    (∀ l1 r l2, sortRulesDesc rules = l1 ++ r :: l2 →
      (∀ x ∈ l1, ruleTriggered amount merchant x = false) →
      ruleTriggered amount merchant r = true →
      evaluateRules rules amount merchant = (r.result.toStatus, flagReason r)) ∧
    (∀ id1 id2 d1 d2 res1 res2, (100 : ℚ) < amount →
      evaluateRules
          [⟨id1, FraudRuleType.amount, d1, some 50, none, res1⟩,
           ⟨id2, FraudRuleType.amount, d2, some 100, none, res2⟩] amount merchant =
        (res2.toStatus, "Flagged by rule: " ++ d2 ++ ".")) := by
  refine ⟨sortRulesDesc_perm rules, sortRulesDesc_pairwise rules, ?_, ?_, ?_, ?_⟩
  · intro r h
    simp [ruleKey, h]
  · intro hpos
    refine (sortRulesDesc_pairwise rules).imp_of_mem ?_
    intro a b _ hb hR hanone
    rcases hpos b ((sortRulesDesc_perm rules).mem_iff.mp hb) with hnone | hposb
    · exact hnone
    · have hka : ruleKey a = 0 := by simp [ruleKey, hanone]
      rw [hka] at hR
      exact absurd (lt_of_lt_of_le hposb hR) (lt_irrefl 0)
  · intro l1 r l2 hdecomp hunt htrig
    unfold evaluateRules
    rw [hdecomp, ruleLoop_append_untriggered amount merchant l1 _ hunt]
    simp [ruleLoop, htrig]
  · intro id1 id2 d1 d2 res1 res2 hgt
    have hs :
        sortRulesDesc
            [⟨id1, FraudRuleType.amount, d1, some 50, none, res1⟩,
             ⟨id2, FraudRuleType.amount, d2, some 100, none, res2⟩] =
          [⟨id2, FraudRuleType.amount, d2, some 100, none, res2⟩,
           ⟨id1, FraudRuleType.amount, d1, some 50, none, res1⟩] := by
      norm_num [sortRulesDesc, insertRuleDesc, ruleKey]
    unfold evaluateRules
    rw [hs]
    simp [ruleLoop, ruleTriggered, numTruthy, flagReason, hgt]

/-- Claim C4, witness: with an amount of 150 against rules of thresholds
50 and 100 (both matching), the 100-threshold rule decides. -/
theorem claim_C4_witness :
    evaluateRules
        [⟨"a", FraudRuleType.amount, "Fifty", some 50, none, RuleResult.in_review⟩,
         ⟨"b", FraudRuleType.amount, "Hundred", some 100, none, RuleResult.fraudulent⟩]
        150 "Store" =
      (TransactionStatus.fraudulent, "Flagged by rule: Hundred.") :=
  (claim_C4_sort_and_first_match
      [⟨"a", FraudRuleType.amount, "Fifty", some 50, none, RuleResult.in_review⟩,
       ⟨"b", FraudRuleType.amount, "Hundred", some 100, none, RuleResult.fraudulent⟩]
      150 "Store").2.2.2.2.2 "a" "b" "Fifty" "Hundred" RuleResult.in_review
    RuleResult.fraudulent (by norm_num)

/-- Claim C5, counterexample: an amount rule with threshold exactly 0 never
matches, because the truthiness guard `rule.threshold &&` treats 0 as
absent — yet an amount of 0 + 0.01 strictly exceeds the threshold 0, so the
claim as stated ("amount X + 0.01 does trigger", for every threshold X)
fails at X = 0. -/
theorem claim_C5_counterexample :
    ((0 : ℚ) < 0 + 1 / 100) ∧
    ruleTriggered (0 + 1 / 100) "Store"
        ⟨"r0", FraudRuleType.amount, "Zero threshold", some 0, none,
         RuleResult.fraudulent⟩ = false := by
  constructor
  · norm_num
  · decide

/-- Claim C5 as amended: for an amount rule with a NONZERO threshold X the
rule matches exactly when the transaction amount strictly exceeds X; an
amount of exactly X does not trigger it, and an amount of X + 0.01 does.
(For X = 0 the rule never matches, see the counterexample.) -/
theorem claim_C5_amount_rule_strict (X amount : ℚ) (merchant id d : String)
    (res : RuleResult) (hX : X ≠ 0) :
    (ruleTriggered amount merchant
        ⟨id, FraudRuleType.amount, d, some X, none, res⟩ = true ↔ X < amount) ∧
    ruleTriggered X merchant
        ⟨id, FraudRuleType.amount, d, some X, none, res⟩ = false ∧
    ruleTriggered (X + 1 / 100) merchant
        ⟨id, FraudRuleType.amount, d, some X, none, res⟩ = true := by
  refine ⟨?_, ?_, ?_⟩
  · simp [ruleTriggered, numTruthy, hX]
  · simp [ruleTriggered, numTruthy, hX, lt_irrefl]
  · have hlt : X < X + 1 / 100 := by linarith
    simp [ruleTriggered, numTruthy, hX, hlt]

/-- Claim C5, witness: with threshold 100, an amount of exactly 100 does
not trigger the rule and an amount of 100.01 does. -/
theorem claim_C5_witness :
    ruleTriggered 100 "Store"
        ⟨"r", FraudRuleType.amount, "Hundred", some 100, none,
         RuleResult.fraudulent⟩ = false ∧
    ruleTriggered (100 + 1 / 100) "Store"
        ⟨"r", FraudRuleType.amount, "Hundred", some 100, none,
         RuleResult.fraudulent⟩ = true :=
  ⟨(claim_C5_amount_rule_strict 100 100 "Store" "r" "Hundred"
      RuleResult.fraudulent (by norm_num)).2.1,
   (claim_C5_amount_rule_strict 100 100 "Store" "r" "Hundred"
      RuleResult.fraudulent (by norm_num)).2.2⟩

/-- Claim C6, counterexample: the empty keyword IS a case-insensitive
substring of every merchant, yet a merchantKeyword rule with keyword ""
never matches, because the truthiness guard `rule.keyword &&` treats the
empty string as absent — refuting "matches exactly when the keyword is a
case-insensitive substring" for every rule. -/
theorem claim_C6_counterexample :
    substrOccurs (lowerString "Amazon") (lowerString "") ∧
    ruleTriggered 500 "Amazon"
        ⟨"rk", FraudRuleType.merchantKeyword, "Empty keyword", none, some "",
         RuleResult.in_review⟩ = false := by
  constructor
  · exact (strIncludes_iff _ _).mp (by decide)
  · decide

/-- Claim C6 as amended: a merchantKeyword rule with a NONEMPTY keyword
matches exactly when the keyword is a case-insensitive substring of the
merchant field (both sides lowercased, contiguous occurrence); a rule with
the empty keyword never matches. -/
theorem claim_C6_keyword_substring (kw merchant id d : String)
    (th : Option ℚ) (res : RuleResult) (amount : ℚ) (hkw : kw ≠ "") :
    ruleTriggered amount merchant
        ⟨id, FraudRuleType.merchantKeyword, d, th, some kw, res⟩ = true ↔
      substrOccurs (lowerString merchant) (lowerString kw) := by
  rw [← strIncludes_iff]
  simp [ruleTriggered, strTruthy, hkw]

/-- Claim C6, witness: the keyword "crypto" matches the merchant
"CryptoExchange123". -/
theorem claim_C6_witness :
    ruleTriggered 500 "CryptoExchange123"
        ⟨"r2", FraudRuleType.merchantKeyword, "Crypto merchant", none,
         some "crypto", RuleResult.in_review⟩ = true :=
  (claim_C6_keyword_substring "crypto" "CryptoExchange123" "r2" "Crypto merchant"
      none RuleResult.in_review 500 (by decide)).mpr
    ((strIncludes_iff _ _).mp (by decide))

/-- Claim C1: starting from a fresh session (loop guard unset, sign-out ref
unset, no calls yet), however many consecutive renders observe the banned
user, exactly one global sign-out and exactly one redirect to the sign-in
screen are performed, and the banned message is displayed. -/
theorem claim_C1_ban_signout_once (u : User) (c : LoginComponent) (n : Nat)
    (hu : u.isBanned = true)
    (hloop : c.session.bannedLoopOnce = false)
    (href : c.signedOutOnce = false)
    (hsc : c.globalSignOutCalls = 0)
    (hnav : c.loginNavigations = 0)
    (hn : 1 ≤ n) :
    ((bannedEffect (some u))^[n] c).globalSignOutCalls = 1 ∧
    ((bannedEffect (some u))^[n] c).loginNavigations = 1 ∧
    ((bannedEffect (some u))^[n] c).session.loginError = some "Account is banned" := by
  obtain ⟨m, rfl⟩ : ∃ m, n = m + 1 := ⟨n - 1, by omega⟩
  have hstep : bannedEffect (some u) c =
      { session :=
          { loginPending := false, authLocked := true,
            loginError := some "Account is banned", bannedLoopOnce := true },
        signedOutOnce := true,
        globalSignOutCalls := c.globalSignOutCalls + 1,
        loginNavigations := c.loginNavigations + 1 } := by
    simp [bannedEffect, hu, hloop, href]
  have hfix : bannedEffect (some u) (bannedEffect (some u) c) =
      bannedEffect (some u) c := by
    rw [hstep]
    simp [bannedEffect, hu]
  rw [Function.iterate_succ_apply, Function.iterate_fixed hfix m, hstep]
  simp [hsc, hnav]

/-- Claim C1, witness: three consecutive banned renders from a fresh login
screen produce one sign-out, one redirect, and the banned message. -/
theorem claim_C1_witness :
    ((bannedEffect (some ⟨"b@x.com", UserRole.Customer, 0, false, none, true⟩))^[3]
        ⟨⟨false, false, none, false⟩, false, 0, 0⟩).globalSignOutCalls = 1 ∧
    ((bannedEffect (some ⟨"b@x.com", UserRole.Customer, 0, false, none, true⟩))^[3]
        ⟨⟨false, false, none, false⟩, false, 0, 0⟩).loginNavigations = 1 ∧
    ((bannedEffect (some ⟨"b@x.com", UserRole.Customer, 0, false, none, true⟩))^[3]
        ⟨⟨false, false, none, false⟩, false, 0, 0⟩).session.loginError =
      some "Account is banned" :=
  claim_C1_ban_signout_once ⟨"b@x.com", UserRole.Customer, 0, false, none, true⟩
    ⟨⟨false, false, none, false⟩, false, 0, 0⟩ 3 rfl rfl rfl rfl rfl (by decide)

/-- Claim C2: the callback guard is idempotent — a second immediate
invocation of the sync handler is a no-op (only the first proceeds, so two
invocations issue exactly one sync) — and for an already-active session
`performSync` finds the existing record, leaves the user list unchanged and
creates nothing, so exactly one user record with that email exists
afterwards; `performSync` issues no audit entries at all. -/
theorem claim_C2_sync_idempotent (s : CallbackState) (email : String)
    (l : List User) (u : User) :
    handleAuthSuccess (handleAuthSuccess s) = handleAuthSuccess s ∧
    (s.started = false → s.syncInvocations = 0 →
      (handleAuthSuccess (handleAuthSuccess s)).syncInvocations = 1) ∧
    (l.find? (fun v => v.email == email) = some u → u.isBanned = false →
      performSync email l = Except.ok ⟨u, l, 0⟩ ∧
      ((l.filter fun v => v.email == email).length = 1 →
        ∃ r : SyncOk, performSync email l = Except.ok r ∧
          (r.users.filter fun v => v.email == email).length = 1 ∧
          r.createdCount = 0)) := by
  refine ⟨?_, ?_, ?_⟩
  · by_cases h : s.started = true
    · simp [handleAuthSuccess, h]
    · simp only [Bool.not_eq_true] at h
      simp [handleAuthSuccess, h]
  · intro h0 hinv
    simp [handleAuthSuccess, h0, hinv]
  · intro hfind hban
    have hsync : performSync email l = Except.ok ⟨u, l, 0⟩ := by
      unfold performSync
      rw [hfind]
      simp [hban]
    exact ⟨hsync, fun hone => ⟨⟨u, l, 0⟩, hsync, hone, rfl⟩⟩

/-- Claim C2, witness: a double invocation from a fresh callback issues one
sync, and syncing an already-present user returns the list unchanged with
zero creations. -/
theorem claim_C2_witness :
    (handleAuthSuccess (handleAuthSuccess ⟨false, 0⟩)).syncInvocations = 1 ∧
    performSync "a@x.com"
        [⟨"a@x.com", UserRole.Customer, 10000, false, none, false⟩] =
      Except.ok ⟨⟨"a@x.com", UserRole.Customer, 10000, false, none, false⟩,
        [⟨"a@x.com", UserRole.Customer, 10000, false, none, false⟩], 0⟩ :=
  ⟨(claim_C2_sync_idempotent ⟨false, 0⟩ "a@x.com" [] ⟨"a@x.com", UserRole.Customer,
      10000, false, none, false⟩).2.1 rfl rfl,
   ((claim_C2_sync_idempotent ⟨false, 0⟩ "a@x.com"
      [⟨"a@x.com", UserRole.Customer, 10000, false, none, false⟩]
      ⟨"a@x.com", UserRole.Customer, 10000, false, none, false⟩).2.2 rfl rfl).1⟩

/-- Claim C8: a firing watchdog timer (either the one installed by the
watchdog effect or the one started by handleSSOLogin) declares the attempt
failed — clearing the pending marker and surfacing a retry message — if and
only if the attempt is still pending and the session is not locked; in
every other case it changes nothing. -/
theorem claim_C8_watchdog (s : LoginSession) :
    (s.loginPending = true → s.authLocked = false →
      watchdogFireEffect s =
        { s with loginPending := false,
                 loginError := some "Sign in failed. Please try again." } ∧
      watchdogFireSSO s =
        { s with loginPending := false,
                 loginError :=
                   some "Sign in failed. Please click “Sign in with Cognito” again." }) ∧
    (s.loginPending = false ∨ s.authLocked = true →
      watchdogFireEffect s = s ∧ watchdogFireSSO s = s) := by
  constructor
  · intro hp hl
    constructor
    · simp [watchdogFireEffect, hp, hl]
    · simp [watchdogFireSSO, hp, hl]
  · rintro (hp | hl)
    · constructor <;> simp [watchdogFireEffect, watchdogFireSSO, hp]
    · constructor <;> simp [watchdogFireEffect, watchdogFireSSO, hl]

/-- Claim C8, witness: a pending unlocked session gets the retry error,
and a locked (banned) session is left untouched by a firing watchdog. -/
theorem claim_C8_witness :
    watchdogFireEffect ⟨true, false, none, false⟩ =
      ⟨false, false, some "Sign in failed. Please try again.", false⟩ ∧
    watchdogFireSSO ⟨true, false, none, false⟩ =
      ⟨false, false, some "Sign in failed. Please click “Sign in with Cognito” again.",
       false⟩ ∧
    watchdogFireEffect ⟨true, true, some "Account is banned", true⟩ =
      ⟨true, true, some "Account is banned", true⟩ :=
  ⟨((claim_C8_watchdog ⟨true, false, none, false⟩).1 rfl rfl).1,
   ((claim_C8_watchdog ⟨true, false, none, false⟩).1 rfl rfl).2,
   ((claim_C8_watchdog ⟨true, true, some "Account is banned", true⟩).2
      (Or.inr rfl)).1⟩

/-- Claim C7, counterexample: at first-time creation the role is NOT always
the default Customer — the second sync variant takes it from the Cognito
group claims, so an identity carrying the group "Admin" is created as an
Admin (and the first variant likewise promotes company-pattern emails). -/
theorem claim_C7_counterexample :
    performSync2 "alice" "alice@example.com" none (some ["Admin"]) [] =
      Except.ok ⟨⟨"alice", "alice@example.com", some "alice", UserRole.Admin,
          10000, false, none, false⟩,
        [⟨"alice", "alice@example.com", some "alice", UserRole.Admin,
          10000, false, none, false⟩], 1⟩ ∧
    UserRole.Admin ≠ UserRole.Customer := by
  constructor
  · rfl
  · decide

/-- Claim C7 as amended: first-time creation uses balance 10000, cardFrozen
false, alertThreshold cleared and isBanned false, with a role computed at
creation (email pattern in the first variant, Cognito groups in the second,
both defaulting to Customer when nothing applies); for already-existing
users sync never changes the role (in particular it never takes it from
group claims). -/
theorem claim_C7_sync_creation_defaults :
    (∀ email (l : List User), l.find? (fun v => v.email == email) = none →
      ∃ nu : User,
        performSync email l = Except.ok ⟨nu, l ++ [nu], 1⟩ ∧
        nu.email = email ∧ nu.role = roleFromEmail email ∧ nu.balance = 10000 ∧
        nu.cardFrozen = false ∧ nu.alertThreshold = none ∧ nu.isBanned = false) ∧
    (∀ e : String, e ≠ "admin@company.com" → strEndsWith e "@company.com" = false →
      roleFromEmail e = UserRole.Customer) ∧
    (∀ username email fn groups (l : List User2),
      l.find? (fun v => v.username == username) = none →
      ∃ nu : User2,
        performSync2 username email fn groups l = Except.ok ⟨nu, l ++ [nu], 1⟩ ∧
        nu.role = getRoleFromCognito groups ∧ nu.balance = 10000 ∧
        nu.cardFrozen = false ∧ nu.alertThreshold = none ∧ nu.isBanned = false) ∧
    getRoleFromCognito none = UserRole.Customer ∧
    getRoleFromCognito (some []) = UserRole.Customer ∧
    (∀ email (l : List User) u, l.find? (fun v => v.email == email) = some u →
      u.isBanned = false →
      ∃ r : SyncOk, performSync email l = Except.ok r ∧
        r.activeUser.role = u.role ∧ r.createdCount = 0) ∧
    (∀ username email fn groups (l : List User2) u r,
      l.find? (fun v => v.username == username) = some u →
      performSync2 username email fn groups l = Except.ok r →
      r.activeUser.role = u.role ∧ r.createdCount = 0) := by
  refine ⟨?_, ?_, ?_, rfl, rfl, ?_, ?_⟩
  · intro email l h
    refine ⟨⟨email, roleFromEmail email, 10000, false, none, false⟩, ?_,
      rfl, rfl, rfl, rfl, rfl, rfl⟩
    unfold performSync
    rw [h]
    rfl
  · intro e h1 h2
    simp [roleFromEmail, h1, h2]
  · intro username email fn groups l h
    refine ⟨⟨username, email, some (jsStringOr fn username),
      getRoleFromCognito groups, 10000, false, none, false⟩, ?_,
      rfl, rfl, rfl, rfl, rfl⟩
    unfold performSync2
    rw [h]
    rfl
  · intro email l u hf hb
    refine ⟨⟨u, l, 0⟩, ?_, rfl, rfl⟩
    unfold performSync
    rw [hf]
    simp [hb]
  · intro username email fn groups l u r hf hok
    unfold performSync2 at hok
    rw [hf] at hok
    dsimp only at hok
    split at hok <;> split at hok <;> split at hok <;>
      first
        | exact Except.noConfusion hok
        | (injection hok with h2; subst h2; exact ⟨rfl, rfl⟩)

/-- Claim C7, witness: a plain email is created as a Customer, and with no
Cognito groups the second variant also defaults to Customer. -/
theorem claim_C7_witness :
    roleFromEmail "bob@gmail.com" = UserRole.Customer ∧
    getRoleFromCognito none = UserRole.Customer :=
  ⟨claim_C7_sync_creation_defaults.2.1 "bob@gmail.com" (by decide) (by decide),
   claim_C7_sync_creation_defaults.2.2.2.1⟩

/-- Claim C9: transfer validation failures (non-positive amount, unknown
recipient, insufficient funds) are raised before any mutation: the client
state (logged-in user, user list) is returned unchanged, no network call is
issued, and the matching error message is thrown — in particular an amount
of at most zero yields "Amount must be positive.". -/
theorem claim_C9_transfer_validation (st : ClientState) (recipientEmail : String)
    (amount : ℚ) :
    (st.user.isSome = true → amount ≤ 0 →
      transferFunds st recipientEmail amount =
        ⟨st, [], some "Amount must be positive."⟩) ∧
    (st.user.isSome = true → 0 < amount →
      st.users.find? (fun v => v.email == recipientEmail) = none →
      transferFunds st recipientEmail amount =
        ⟨st, [], some "Recipient not found."⟩) ∧
    (∀ u r, st.user = some u → 0 < amount →
      st.users.find? (fun v => v.email == recipientEmail) = some r →
      u.balance < amount →
      transferFunds st recipientEmail amount =
        ⟨st, [], some "Insufficient funds."⟩) := by
  refine ⟨?_, ?_, ?_⟩
  · intro hsome hle
    cases hu : st.user with
    | none => rw [hu] at hsome; cases hsome
    | some u =>
        unfold transferFunds
        rw [hu]
        simp [hle]
  · intro hsome hpos hfind
    cases hu : st.user with
    | none => rw [hu] at hsome; cases hsome
    | some u =>
        unfold transferFunds
        rw [hu]
        simp [not_le.mpr hpos, hfind]
  · intro u r hu hpos hfind hlt
    unfold transferFunds
    rw [hu]
    simp [not_le.mpr hpos, hfind, hlt]

/-- Claim C9, witness: a -$5 transfer from a logged-in user is rejected
with "Amount must be positive.", with state unchanged and no network
call. -/
theorem claim_C9_witness :
    transferFunds
        ⟨some ⟨"s@x.com", UserRole.Customer, 10000, false, none, false⟩,
         [⟨"s@x.com", UserRole.Customer, 10000, false, none, false⟩,
          ⟨"r@x.com", UserRole.Customer, 100, false, none, false⟩]⟩
        "r@x.com" (-5) =
      ⟨⟨some ⟨"s@x.com", UserRole.Customer, 10000, false, none, false⟩,
        [⟨"s@x.com", UserRole.Customer, 10000, false, none, false⟩,
         ⟨"r@x.com", UserRole.Customer, 100, false, none, false⟩]⟩, [],
       some "Amount must be positive."⟩ :=
  (claim_C9_transfer_validation
      ⟨some ⟨"s@x.com", UserRole.Customer, 10000, false, none, false⟩,
       [⟨"s@x.com", UserRole.Customer, 10000, false, none, false⟩,
        ⟨"r@x.com", UserRole.Customer, 100, false, none, false⟩]⟩
      "r@x.com" (-5)).1 rfl (by norm_num)

/-- Claim C10: for a customer transaction that passes the pre-checks and is
persisted, the resulting balance equals the old balance minus the amount
exactly when the decided status is not fraudulent: an in-review transaction
still deducts, a fraudulent one leaves the balance unchanged. -/
theorem claim_C10_balance_deduction (user : User) (rules : List FraudRule)
    (amount : ℚ) (merchant : String)
    (hban : user.isBanned = false) (hfrozen : user.cardFrozen = false)
    (hfunds : ¬ user.balance < amount) (hpos : 0 < amount) :
    ∃ newBalance : ℚ,
      handleAddTransaction user rules amount merchant =
        TxnOutcome.processed (evaluateRules rules amount merchant).1
          (evaluateRules rules amount merchant).2 newBalance ∧
      (newBalance = user.balance - amount ↔
        (evaluateRules rules amount merchant).1 ≠ TransactionStatus.fraudulent) ∧
      ((evaluateRules rules amount merchant).1 = TransactionStatus.in_review →
        newBalance = user.balance - amount) ∧
      ((evaluateRules rules amount merchant).1 = TransactionStatus.fraudulent →
        newBalance = user.balance) := by
  refine ⟨if (evaluateRules rules amount merchant).1 ≠ TransactionStatus.fraudulent
      then user.balance - amount else user.balance, ?_, ?_, ?_, ?_⟩
  · unfold handleAddTransaction
    simp [hban, hfrozen, hfunds]
  · by_cases h : (evaluateRules rules amount merchant).1 = TransactionStatus.fraudulent
    · rw [if_neg (not_not.mpr h)]
      constructor
      · intro heq
        exfalso
        have hz : amount = 0 := by linarith
        exact hpos.ne' hz
      · intro hne
        exact absurd h hne
    · rw [if_pos h]
      exact ⟨fun _ => h, fun _ => rfl⟩
  · intro h
    have hne : (evaluateRules rules amount merchant).1 ≠
        TransactionStatus.fraudulent := by
      rw [h]
      decide
    rw [if_pos hne]
  · intro h
    rw [if_neg (not_not.mpr h)]

/-- Claim C10, witness: with no rules, a $500 transaction by a customer
with balance $10000 is approved and the balance drops to $9500. -/
theorem claim_C10_witness :
    handleAddTransaction ⟨"c@x.com", UserRole.Customer, 10000, false, none, false⟩
        [] 500 "Store" =
      TxnOutcome.processed TransactionStatus.approved
        "Transaction appears normal." 9500 := by
  obtain ⟨nb, h1, h2, _, _⟩ :=
    claim_C10_balance_deduction
      ⟨"c@x.com", UserRole.Customer, 10000, false, none, false⟩ [] 500 "Store"
      rfl rfl (by decide) (by decide)
  have hnb : nb = (10000 : ℚ) - 500 := h2.mpr (by decide)
  rw [h1, hnb, show (10000 : ℚ) - 500 = 9500 from by norm_num]
  rfl

end Fraudly
